import Mathlib

/-!
Shallow embedding of `get-transits.py` (ETD transit filter).

The script downloads a table of exoplanet transits, builds one record per
table row, filters the records by magnitude depth, meridian flip, time
window and elevation, enriches survivors with a sample count fetched from
the Exoplanet Transit Database, sorts ascending by that count and prints a
semicolon-separated table.  Network and HTML access are external
boundaries: a table row arrives here as its already-extracted cell texts,
and the sample-count lookup is abstracted as a function from object name
to count.  Python floats (the magnitude depth) are modelled as rationals,
Python `datetime.datetime` values (all constructed with `tzinfo=utc`) as a
plain Gregorian timestamp record, and `datetime.time` values as minutes
after midnight.
-/

namespace GetTransits

/-- A UTC timestamp as built by `datetime.datetime(year, month, day, hour,
minute, tzinfo=datetime.timezone.utc)` in the script. -/
structure DateTime where
  year : Nat
  month : Nat
  day : Nat
  hour : Nat
  minute : Nat
deriving DecidableEq

/-- Strict comparison of two same-zone timestamps, mirroring Python
`datetime` ordering: lexicographic on (year, month, day, hour, minute). -/
def DateTime.ltb (a b : DateTime) : Bool :=
  if a.year ≠ b.year then decide (a.year < b.year)
  else if a.month ≠ b.month then decide (a.month < b.month)
  else if a.day ≠ b.day then decide (a.day < b.day)
  else if a.hour ≠ b.hour then decide (a.hour < b.hour)
  else decide (a.minute < b.minute)

/-- One time/elevation sample of a transit: the inner dictionaries with
keys `time` and `elevation` used by the script. -/
structure Moment where
  time : DateTime
  elevation : Int
deriving DecidableEq

/-- The `.timetz()` value of a moment, as minutes after midnight.  Python
compares `datetime.time` values lexicographically on (hour, minute, ...),
which coincides with comparison of these minute counts. -/
def Moment.timetz (m : Moment) : Nat := 60 * m.time.hour + m.time.minute

/-- The configuration keys the pipeline reads.  `min_start_time` and
`max_end_time` hold the result of `datetime.time.fromisoformat` on the
configured strings, as minutes after midnight. -/
structure Config where
  min_mag_depth : ℚ
  elevation_threshold : Int
  min_start_time : Nat
  max_end_time : Nat

/-- A fully populated transit dictionary: object name, magnitude depth and
the three samples, as consumed by the filter chain. -/
structure Transit where
  object : String
  mag_depth : ℚ
  begin : Moment
  center : Moment
  end_ : Moment
deriving DecidableEq

/-- An enriched transit: a transit dictionary after the key `n_samples`
has been added by the enrichment loop. -/
structure ETransit extends Transit where
  n_samples : Nat
deriving DecidableEq

/-- Filter function `filter_time` (lines 62-79): keep when the begin
time-of-day is at least the configured minimum and the end time-of-day is
at most the configured maximum. -/
def filter_time (transit : Transit) (config : Config) : Bool :=
  let start_time := transit.begin.timetz
  let end_time := transit.end_.timetz
  if start_time ≥ config.min_start_time ∧ end_time ≤ config.max_end_time then true
  else false

/-- Filter function `filter_meridian_flip` (lines 83-99): discard when the
center elevation is a strict interior maximum. -/
def filter_meridian_flip (transit : Transit) : Bool :=
  let be := transit.begin.elevation
  let ce := transit.center.elevation
  let ee := transit.end_.elevation
  if be < ce ∧ ee < ce then false
  else true

/-- Filter function `filter_elevation` (lines 103-119): discard as soon as
one of the three elevations is below the configured threshold. -/
def filter_elevation (transit : Transit) (config : Config) : Bool :=
  if transit.begin.elevation < config.elevation_threshold then false
  else if transit.end_.elevation < config.elevation_threshold then false
  else if transit.center.elevation < config.elevation_threshold then false
  else true

/-- The depth lambda of line 226: `t["mag_depth"] >= config["min_mag_depth"]`. -/
def filter_depth (config : Config) (transit : Transit) : Bool :=
  decide (transit.mag_depth ≥ config.min_mag_depth)

/-- The filter chain of lines 226-229, in source order: depth, meridian
flip, time window, elevation threshold. -/
def applyFilters (config : Config) (transits : List Transit) : List Transit :=
  (((transits.filter (filter_depth config)).filter
      filter_meridian_flip).filter
      (fun t => filter_time t config)).filter
      (fun t => filter_elevation t config)

/-- Numeric value of an ASCII digit character: `int` applied to a single
captured digit. -/
def digitVal (c : Char) : Nat := c.toNat - 48

/-- Greedy match of one or two digits followed by the literal delimiter
`l`, mirroring the regex fragment of a one-to-two digit group in front of
a fixed delimiter: two digits are tried first, with a backtrack to one
digit.  Returns the value and the text after the delimiter. -/
def grabDigits12 (l : Char) : List Char → Option (Nat × List Char)
  | c0 :: c1 :: c2 :: rest =>
    if c0.isDigit ∧ c1.isDigit ∧ c2 = l then
      some (10 * digitVal c0 + digitVal c1, rest)
    else if c0.isDigit ∧ c1 = l then some (digitVal c0, c2 :: rest)
    else none
  | [c0, c1] =>
    if c0.isDigit ∧ c1 = l then some (digitVal c0, [])
    else none
  | _ => none

/-- Match of exactly two digits, mirroring the two-digit minute group. -/
def grabDigits2 : List Char → Option (Nat × List Char)
  | c0 :: c1 :: rest =>
    if c0.isDigit ∧ c1.isDigit then some (10 * digitVal c0 + digitVal c1, rest)
    else none
  | _ => none

/-- Match of the elevation group: an optional minus sign, then one or two
digits (greedy), then the degree mark.  Declining the optional minus when
one is present cannot help the regex engine, because the digit class then
has to match the minus itself; so the sign is consumed whenever present. -/
def grabElevation : List Char → Option (Int × List Char)
  | [] => none
  | c :: rest =>
    if c = '-' then
      match grabDigits12 '°' rest with
      | some (n, r) => some (-(n : Int), r)
      | none => none
    else
      match grabDigits12 '°' (c :: rest) with
      | some (n, r) => some ((n : Int), r)
      | none => none

/-- The common tail of both row regexes: 1-2 digit hour, colon, 2-digit
minute, signed 1-2 digit elevation, degree mark; any trailing text (the
compass direction) is ignored.  The groups cannot interact across
boundaries: the hour group is delimited by the colon (a digit can never
equal the colon, so only one width survives), the minute group has a fixed
width, and the elevation group is delimited by the degree mark, so the
sequential translation of the regex is exact. -/
def parseTimeElev (cs : List Char) : Option (Nat × Nat × Int) :=
  match grabDigits12 ':' cs with
  | none => none
  | some (hour, r1) =>
    match grabDigits2 r1 with
    | none => none
    | some (minute, r2) =>
      match grabElevation r2 with
      | none => none
      | some (elevation, _) => some (hour, minute, elevation)

/-- The inner helper `extractStartEndTimes` of `main` (lines 210-219),
restricted to its parsing part: the anchored regex of line 212 applied to
a begin or end cell text, yielding hour, minute and elevation. -/
def extractStartEndTimes (text : String) : Option (Nat × Nat × Int) :=
  parseTimeElev text.data

/-- The anchored center-cell regex of line 194: 2-digit day, dot, 2-digit
month, dot, one space, then the common hour/minute/elevation tail.
Yields day, month, hour, minute and elevation. -/
def parseCenterText (text : String) : Option (Nat × Nat × Nat × Nat × Int) :=
  match text.data with
  | c0 :: c1 :: c2 :: c3 :: c4 :: c5 :: c6 :: rest =>
    if c0.isDigit ∧ c1.isDigit ∧ c2 = '.' ∧ c3.isDigit ∧ c4.isDigit ∧
        c5 = '.' ∧ c6 = ' ' then
      match parseTimeElev rest with
      | none => none
      | some (hour, minute, elevation) =>
        some (10 * digitVal c0 + digitVal c1, 10 * digitVal c3 + digitVal c4,
          hour, minute, elevation)
    else none
  | _ => none

/-- One data row of the downloaded table, after the HTML boundary: the
object link text when the row has one (`none` for formatting rows), the
begin, center and end cell texts, and the magnitude depth of column 6. -/
structure Row where
  object : Option String
  beginText : String
  centerText : String
  endText : String
  mag_depth : ℚ

/-- Gregorian leap-year rule. -/
def leapYear (y : Nat) : Bool := (y % 4 == 0 && y % 100 != 0) || y % 400 == 0

/-- Length of a Gregorian month. -/
def daysInMonth (y m : Nat) : Nat :=
  if m = 2 then (if leapYear y then 29 else 28)
  else if m = 4 ∨ m = 6 ∨ m = 9 ∨ m = 11 then 30
  else 31

/-- The range check performed by the `datetime.datetime` constructor on
lines 202 and 218: the year must lie between MINYEAR and MAXYEAR, the
month and day must denote an existing calendar date, and hour and minute
must be a valid clock time; otherwise the constructor raises `ValueError`,
which nothing in the script catches. -/
def validDateTime (year month day hour minute : Nat) : Bool :=
  decide (1 ≤ year ∧ year ≤ 9999 ∧ 1 ≤ month ∧ month ≤ 12 ∧ 1 ≤ day) &&
    decide (day ≤ daysInMonth year month ∧ hour ≤ 23 ∧ minute ≤ 59)

/-- A transit dictionary as the row loop actually leaves it: the center
moment is always set when the row survives, but the begin and end moments
may be missing, because `extractStartEndTimes` writes nothing when its
regex does not match. -/
structure RawTransit where
  object : String
  mag_depth : ℚ
  center : Moment
  begin : Option Moment
  end_ : Option Moment
deriving DecidableEq

/-- Outcome of the row loop body (lines 180-223) for one row: a silent
skip, the early return of lines 204-206, an uncaught `ValueError` from a
`datetime.datetime` constructor (lines 202 and 218) crashing the run, or
an appended transit. -/
inductive RowResult
  | skip
  | abort
  | crash
  | built (t : RawTransit)
deriving DecidableEq

/-- The moment a begin or end cell contributes (lines 210-219): a cell
failing the regex contributes nothing, silently; a cell matching the regex
feeds its fields to `datetime.datetime` (line 218), which raises
`ValueError` when they are out of range.  The outer `none` is that
uncaught exception. -/
def momentOfCell (year month day : Nat) :
    Option (Nat × Nat × Int) → Option (Option Moment)
  | none => some none
  | some (h, mi, e) =>
    if validDateTime year month day h mi then
      some (some (Moment.mk (DateTime.mk year month day h mi) e))
    else none

/-- The row loop body of `main` (lines 180-223): a row without a link is
skipped; a center cell that fails its regex aborts the whole run (lines
204-206); a `datetime.datetime` call on out-of-range fields (lines 202
and 218) crashes the run; begin and end cells that fail their regex leave
the corresponding moment unset, and the transit is appended regardless. -/
def buildRow (year : Nat) (row : Row) : RowResult :=
  match row.object with
  | none => RowResult.skip
  | some obj =>
    match parseCenterText row.centerText with
    | none => RowResult.abort
    | some (day, month, hour, minute, elevation) =>
      if validDateTime year month day hour minute then
        match momentOfCell year month day (extractStartEndTimes row.beginText) with
        | none => RowResult.crash
        | some b =>
          match momentOfCell year month day (extractStartEndTimes row.endText) with
          | none => RowResult.crash
          | some e =>
            RowResult.built
              { object := obj
                mag_depth := row.mag_depth
                center := Moment.mk (DateTime.mk year month day hour minute) elevation
                begin := b
                end_ := e }
      else RowResult.crash

/-- The enrichment loop of lines 233-234, with the external ETD lookup
`get_database_sample_number` abstracted as a function from object name to
sample count. -/
def enrich (sample_number : String → Nat) (transits : List Transit) : List ETransit :=
  transits.map fun transit =>
    { transit with n_samples := sample_number transit.object }

/-- The sort key order of line 237: ascending `n_samples`. -/
def bySamples (a b : ETransit) : Prop := a.n_samples ≤ b.n_samples

instance : DecidableRel bySamples := fun a b => Nat.decLe a.n_samples b.n_samples

instance : IsTotal ETransit bySamples := ⟨fun a b => Nat.le_total a.n_samples b.n_samples⟩

instance : IsTrans ETransit bySamples := ⟨fun _ _ _ => Nat.le_trans⟩

/-- The sort of line 237, `transits.sort(key=lambda k: k["n_samples"])`:
Python `list.sort` is an ascending stable sort, and a stable ascending
sort is determined uniquely by its input and key, so insertion sort with
the key order realizes it exactly. -/
def sortTransits (transits : List ETransit) : List ETransit :=
  List.insertionSort bySamples transits

/-- Zero-padding to two characters, as strftime does for month, day, hour
and minute. -/
def pad2 (n : Nat) : String := if n < 10 then "0" ++ toString n else toString n

/-- Zero-padding to four characters, as strftime does for the year. -/
def pad4 (n : Nat) : String :=
  if n < 10 then "000" ++ toString n
  else if n < 100 then "00" ++ toString n
  else if n < 1000 then "0" ++ toString n
  else toString n

/-- The `astimezone(tz)` conversion of lines 39-40 and 49-53 applied to
the stored UTC timestamps: add the fixed offset of two hours, rolling over
day, month and year as the Gregorian calendar requires. -/
def toLocal (t : DateTime) : DateTime :=
  if t.hour + 2 < 24 then
    DateTime.mk t.year t.month t.day (t.hour + 2) t.minute
  else if t.day + 1 ≤ daysInMonth t.year t.month then
    DateTime.mk t.year t.month (t.day + 1) (t.hour + 2 - 24) t.minute
  else if t.month + 1 ≤ 12 then
    DateTime.mk t.year (t.month + 1) 1 (t.hour + 2 - 24) t.minute
  else
    DateTime.mk (t.year + 1) 1 1 (t.hour + 2 - 24) t.minute

/-- `strftime` with the format of line 38: year-month-day space
hour-colon-minute, all zero-padded. -/
def strftime (t : DateTime) : String :=
  pad4 t.year ++ "-" ++ pad2 t.month ++ "-" ++ pad2 t.day ++ " " ++
    pad2 t.hour ++ ":" ++ pad2 t.minute

/-- The header fields of line 42. -/
def csvHeaderFields : List String :=
  ["object", "mag_depth", "n_samples", "begin time (cest)", "begin elevation",
    "center time (cest)", "center elevation", "end time (cest)", "end elevation"]

/-- The data fields of lines 45-55.  `toString` on the rational magnitude
depth stands in for Python `str` on the float. -/
def csvFields (transit : ETransit) : List String :=
  [transit.object,
    toString transit.mag_depth,
    toString transit.n_samples,
    strftime (toLocal transit.begin.time),
    toString transit.begin.elevation,
    strftime (toLocal transit.center.time),
    toString transit.center.elevation,
    strftime (toLocal transit.end_.time),
    toString transit.end_.elevation]

/-- `print_transits_csv` (lines 32-56), with the printed lines collected
into a list: the joined header, then one joined data line per transit, in
list order, and nothing else. -/
def print_transits_csv (transits : List ETransit) : List String :=
  String.intercalate ";" csvHeaderFields ::
    transits.map fun transit => String.intercalate ";" (csvFields transit)

/-- The tail of `main` (lines 226-239): filter chain, enrichment, sort,
CSV rendering. -/
def pipeline (config : Config) (sample_number : String → Nat)
    (transits : List Transit) : List String :=
  print_transits_csv (sortTransits (enrich sample_number (applyFilters config transits)))

/-! Concrete sample data used by the statements below. -/

/-- A sample transit with prescribed begin, center and end elevations. -/
def mkElev (be ce ee : Int) : Transit :=
  { object := "X b"
    mag_depth := 1
    begin := Moment.mk (DateTime.mk 2023 6 8 20 0) be
    center := Moment.mk (DateTime.mk 2023 6 8 21 0) ce
    end_ := Moment.mk (DateTime.mk 2023 6 8 22 0) ee }

/-- A sample transit with prescribed begin and end clock times. -/
def mkTimed (bh bm eh em : Nat) : Transit :=
  { object := "X b"
    mag_depth := 1
    begin := Moment.mk (DateTime.mk 2023 6 8 bh bm) 30
    center := Moment.mk (DateTime.mk 2023 6 8 20 0) 50
    end_ := Moment.mk (DateTime.mk 2023 6 8 eh em) 40 }

/-- A configuration whose observation window is 18:00 to 23:00, i.e. the
values of `datetime.time.fromisoformat` on those strings in minutes. -/
def window18to23 : Config :=
  { min_mag_depth := 0, elevation_threshold := 0
    min_start_time := 1080, max_end_time := 1380 }

/-- A configuration whose elevation threshold is 20 degrees. -/
def threshold20 : Config :=
  { min_mag_depth := 0, elevation_threshold := 20
    min_start_time := 0, max_end_time := 1439 }

/-- The transit with the date fields of its begin and end timestamps
replaced by those of `b` and `e`, keeping both clock times. -/
def withBeginEndDates (transit : Transit) (b e : DateTime) : Transit :=
  { transit with
    begin := Moment.mk
      (DateTime.mk b.year b.month b.day transit.begin.time.hour transit.begin.time.minute)
      transit.begin.elevation
    end_ := Moment.mk
      (DateTime.mk e.year e.month e.day transit.end_.time.hour transit.end_.time.minute)
      transit.end_.elevation }

/-- C3: the meridian-flip filter discards a candidate exactly when the
begin and end elevations are both strictly below the center elevation;
elevations (10, 30, 15) are discarded, (30, 10, 40) and (10, 30, 40) are
kept. -/
theorem meridian_filter_correct :
    (∀ transit : Transit,
        filter_meridian_flip transit = false ↔
          (transit.begin.elevation < transit.center.elevation ∧
            transit.end_.elevation < transit.center.elevation)) ∧
      filter_meridian_flip (mkElev 10 30 15) = false ∧
      filter_meridian_flip (mkElev 30 10 40) = true ∧
      filter_meridian_flip (mkElev 10 30 40) = true := by
  refine ⟨fun transit => ?_, by decide, by decide, by decide⟩
  simp only [filter_meridian_flip]
  split
  · simp_all
  · simp_all

/-- C4: the time-window filter keeps a candidate exactly when its begin
time-of-day is at least the configured minimum and its end time-of-day is
at most the configured maximum, both boundaries inclusive; the calendar
dates of the begin and end timestamps are ignored; with window
18:00-23:00, begin 17:59 is discarded and begin 18:00 with end 23:00 is
kept. -/
theorem time_filter_correct :
    (∀ (transit : Transit) (config : Config),
        filter_time transit config = true ↔
          (config.min_start_time ≤
              60 * transit.begin.time.hour + transit.begin.time.minute ∧
            60 * transit.end_.time.hour + transit.end_.time.minute ≤
              config.max_end_time)) ∧
      (∀ (transit : Transit) (config : Config) (b e : DateTime),
        filter_time (withBeginEndDates transit b e) config = filter_time transit config) ∧
      filter_time (mkTimed 17 59 22 0) window18to23 = false ∧
      filter_time (mkTimed 18 0 23 0) window18to23 = true := by
  refine ⟨fun transit config => ?_, fun transit config b e => ?_, by decide, by decide⟩
  · simp only [filter_time, Moment.timetz, ge_iff_le]
    split
    · simp_all
    · simp_all
  · simp only [filter_time, Moment.timetz, withBeginEndDates]

/-- C5: the elevation-threshold filter keeps a candidate exactly when all
three elevations are at least the configured threshold; with threshold 20,
a sample exactly at 20 passes, and any single sample at 19 discards. -/
theorem elevation_filter_correct :
    (∀ (transit : Transit) (config : Config),
        filter_elevation transit config = true ↔
          (config.elevation_threshold ≤ transit.begin.elevation ∧
            config.elevation_threshold ≤ transit.center.elevation ∧
            config.elevation_threshold ≤ transit.end_.elevation)) ∧
      filter_elevation (mkElev 25 20 22) threshold20 = true ∧
      filter_elevation (mkElev 19 25 22) threshold20 = false ∧
      filter_elevation (mkElev 25 19 22) threshold20 = false ∧
      filter_elevation (mkElev 25 22 19) threshold20 = false := by
  refine ⟨fun transit config => ?_, by decide, by decide, by decide, by decide⟩
  simp only [filter_elevation]
  split_ifs with h1 h2 h3 <;> constructor <;> intro h <;> first
    | omega
    | simp_all

/-- C9: the depth filter keeps a candidate exactly when its magnitude
depth is at least the configured minimum; a candidate is in the filtered
list exactly when it is in the input list and satisfies that bound. -/
theorem depth_filter_correct :
    (∀ (config : Config) (transit : Transit),
        filter_depth config transit = true ↔
          config.min_mag_depth ≤ transit.mag_depth) ∧
      ∀ (config : Config) (transits : List Transit) (t : Transit),
        t ∈ transits.filter (filter_depth config) ↔
          (t ∈ transits ∧ config.min_mag_depth ≤ t.mag_depth) := by
  constructor
  · intro config transit
    simp [filter_depth, ge_iff_le]
  · intro config transits t
    simp [List.mem_filter, filter_depth, ge_iff_le]

/-- A table row whose three cells all parse, but whose begin clock time
lies after the center clock time (a transit spanning midnight): all three
moments receive the same calendar date, so the parsed begin timestamp is
later than the parsed center timestamp. -/
def rowOutOfOrder : Row :=
  { object := some "WASP-12 b"
    beginText := "23:0010°,NE"
    centerText := "08.06. 00:3030°,NE"
    endText := "01:4540°,NW"
    mag_depth := 1 }

/-- The candidate the row loop builds from `rowOutOfOrder`. -/
def transitOutOfOrder : RawTransit :=
  { object := "WASP-12 b"
    mag_depth := 1
    center := Moment.mk (DateTime.mk 2023 6 8 0 30) 30
    begin := some (Moment.mk (DateTime.mk 2023 6 8 23 0) 10)
    end_ := some (Moment.mk (DateTime.mk 2023 6 8 1 45) 40) }

/-- C1 counterexample: the row loop emits `rowOutOfOrder` as a candidate
although its begin timestamp is not before its center timestamp (in fact
the center lies strictly before the begin), so no chronological-order
rejection happens before construction completes. -/
theorem builder_emits_disordered_row :
    buildRow 2023 rowOutOfOrder = RowResult.built transitOutOfOrder ∧
      transitOutOfOrder.begin = some (Moment.mk (DateTime.mk 2023 6 8 23 0) 10) ∧
      DateTime.ltb (DateTime.mk 2023 6 8 23 0) transitOutOfOrder.center.time = false ∧
      DateTime.ltb transitOutOfOrder.center.time (DateTime.mk 2023 6 8 23 0) = true := by
  refine ⟨by decide, by decide, by decide, by decide⟩

/-- A table row whose center cell matches the regex with minute field 70:
the `datetime.datetime` call on line 202 raises `ValueError` there. -/
def rowBadMinute : Row :=
  { object := some "X b"
    beginText := "10:0310°,NE"
    centerText := "08.06. 11:7069°,NE"
    endText := "12:1540°,NW"
    mag_depth := 1 }

/-- C1 (amended): the Record Builder performs no chronological-order
check: whenever a row carries an object link, its center cell matches its
regex, the center fields are in range for `datetime.datetime`, and the
begin and end cells contribute their moments without a `ValueError`, the
candidate is emitted, with no condition on the order of the three
timestamps; a regex-matching row whose fields are out of range (minute 70)
instead crashes the run rather than being rejected before construction. -/
theorem builder_emits_without_order_check :
    (∀ (year : Nat) (row : Row) (obj : String) (day month hour minute : Nat)
        (elevation : Int) (b e : Option Moment),
        row.object = some obj →
        parseCenterText row.centerText = some (day, month, hour, minute, elevation) →
        validDateTime year month day hour minute = true →
        momentOfCell year month day (extractStartEndTimes row.beginText) = some b →
        momentOfCell year month day (extractStartEndTimes row.endText) = some e →
        buildRow year row = RowResult.built
          { object := obj
            mag_depth := row.mag_depth
            center := Moment.mk (DateTime.mk year month day hour minute) elevation
            begin := b
            end_ := e }) ∧
      buildRow 2023 rowBadMinute = RowResult.crash := by
  refine ⟨?_, by decide⟩
  intro year row obj day month hour minute elevation b e hobj hc hv hb he
  simp [buildRow, hobj, hc, hv, hb, he]

/-- Witness for the amended C1 at the concrete out-of-order row. -/
theorem builder_emits_without_order_check_witness :
    buildRow 2023 rowOutOfOrder = RowResult.built transitOutOfOrder :=
  builder_emits_without_order_check.1 2023 rowOutOfOrder "WASP-12 b" 8 6 0 30 30
    (some (Moment.mk (DateTime.mk 2023 6 8 23 0) 10))
    (some (Moment.mk (DateTime.mk 2023 6 8 1 45) 40))
    rfl rfl rfl rfl rfl

/-- A table row whose begin cell does not match the begin/end regex while
the center and end cells are well-formed. -/
def rowBadBegin : Row :=
  { object := some "HAT-P-32 b"
    beginText := "garbage"
    centerText := "08.06. 11:0969°,NE"
    endText := "12:1540°,NW"
    mag_depth := 1 }

/-- A table row whose center cell does not match the center regex. -/
def rowBadCenter : Row :=
  { object := some "HAT-P-32 b"
    beginText := "10:0310°,NE"
    centerText := "garbage"
    endText := "12:1540°,NW"
    mag_depth := 1 }

/-- C2: a begin cell that fails the pattern is not fatal: the row loop
silently leaves the begin moment unset and still emits the candidate,
whereas a failing center cell does abort the run. -/
theorem begin_parse_failure_not_fatal :
    buildRow 2023 rowBadBegin = RowResult.built
        { object := "HAT-P-32 b"
          mag_depth := 1
          center := Moment.mk (DateTime.mk 2023 6 8 11 9) 69
          begin := none
          end_ := some (Moment.mk (DateTime.mk 2023 6 8 12 15) 40) } ∧
      buildRow 2023 rowBadCenter = RowResult.abort := by
  refine ⟨by decide, by decide⟩

/-- C7: the missing separator between minute and elevation is resolved by
fixed field widths alone: on any text of the shape two-digit hour, colon,
two digits, one or two further digits (optionally signed), degree mark,
arbitrary tail, the minute is exactly the two digits after the colon and
the elevation is the digits between them and the degree mark; in
particular "11:0969°" yields hour 11, minute 9, elevation 69. -/
theorem parser_fixed_widths :
    (∀ (h1 h2 m1 m2 e1 e2 : Char) (rest : List Char),
        h1.isDigit = true → h2.isDigit = true → m1.isDigit = true →
        m2.isDigit = true → e1.isDigit = true → e2.isDigit = true →
        parseTimeElev (h1 :: h2 :: ':' :: m1 :: m2 :: e1 :: e2 :: '°' :: rest) =
          some (10 * digitVal h1 + digitVal h2, 10 * digitVal m1 + digitVal m2,
            ((10 * digitVal e1 + digitVal e2 : Nat) : Int))) ∧
      (∀ (h1 h2 m1 m2 e1 e2 : Char) (rest : List Char),
        h1.isDigit = true → h2.isDigit = true → m1.isDigit = true →
        m2.isDigit = true → e1.isDigit = true → e2.isDigit = true →
        parseTimeElev (h1 :: h2 :: ':' :: m1 :: m2 :: '-' :: e1 :: e2 :: '°' :: rest) =
          some (10 * digitVal h1 + digitVal h2, 10 * digitVal m1 + digitVal m2,
            -((10 * digitVal e1 + digitVal e2 : Nat) : Int))) ∧
      extractStartEndTimes "11:0969°" = some (11, 9, 69) := by
  refine ⟨?_, ?_, by decide⟩
  · intro h1 h2 m1 m2 e1 e2 rest d1 d2 d3 d4 d5 d6
    have hne : ¬ e1 = '-' := by
      intro h
      rw [h] at d5
      exact absurd d5 (by decide)
    simp [parseTimeElev, grabDigits12, grabDigits2, grabElevation,
      d1, d2, d3, d4, d5, d6, hne]
  · intro h1 h2 m1 m2 e1 e2 rest d1 d2 d3 d4 d5 d6
    simp [parseTimeElev, grabDigits12, grabDigits2, grabElevation,
      d1, d2, d3, d4, d5, d6]

/-- Witness for C7 at the ambiguous example text. -/
theorem parser_fixed_widths_witness :
    parseTimeElev ('1' :: '1' :: ':' :: '0' :: '9' :: '6' :: '9' :: '°' :: []) =
      some (11, 9, 69) :=
  parser_fixed_widths.1 '1' '1' '0' '9' '6' '9' [] rfl rfl rfl rfl rfl rfl

/-- Inserting an element whose key equals `k` puts it in front of every
element of equal key already present: the key-`k` sublist gains the new
element at its head. -/
lemma filter_orderedInsert_eq_key (k : Nat) (x : ETransit) (l : List ETransit)
    (hx : x.n_samples = k) :
    (List.orderedInsert bySamples x l).filter (fun t => t.n_samples == k) =
      x :: l.filter (fun t => t.n_samples == k) := by
  induction l with
  | nil => simp [hx]
  | cons y ys ih =>
    by_cases h : bySamples x y
    · rw [List.orderedInsert, if_pos h]
      simp [List.filter_cons, hx]
    · rw [List.orderedInsert, if_neg h]
      have hy : ¬ y.n_samples = k := by
        simp only [bySamples] at h
        omega
      simp [List.filter_cons, hy, ih]

/-- Inserting an element whose key differs from `k` leaves the key-`k`
sublist unchanged. -/
lemma filter_orderedInsert_ne_key (k : Nat) (x : ETransit) (l : List ETransit)
    (hx : ¬ x.n_samples = k) :
    (List.orderedInsert bySamples x l).filter (fun t => t.n_samples == k) =
      l.filter (fun t => t.n_samples == k) := by
  induction l with
  | nil => simp [hx]
  | cons y ys ih =>
    by_cases h : bySamples x y
    · rw [List.orderedInsert, if_pos h]
      simp [List.filter_cons, hx]
    · rw [List.orderedInsert, if_neg h]
      by_cases hy : y.n_samples = k <;> simp [List.filter_cons, hy, ih]

/-- Stability of the sort of line 237: for every key value, the sublist of
entries with that key is preserved verbatim. -/
lemma filter_sortTransits_eq (k : Nat) (l : List ETransit) :
    (sortTransits l).filter (fun t => t.n_samples == k) =
      l.filter (fun t => t.n_samples == k) := by
  induction l with
  | nil => rfl
  | cons x xs ih =>
    have hxs : (List.insertionSort bySamples xs).filter (fun t => t.n_samples == k) =
        xs.filter (fun t => t.n_samples == k) := ih
    simp only [sortTransits, List.insertionSort]
    by_cases hx : x.n_samples = k
    · rw [filter_orderedInsert_eq_key k x _ hx, hxs]
      simp [List.filter_cons, hx]
    · rw [filter_orderedInsert_ne_key k x _ hx, hxs]
      simp [List.filter_cons, hx]

/-- An enriched sample candidate with the given name and sample count. -/
def mkRanked (name : String) (n : Nat) : ETransit :=
  { object := name
    mag_depth := 1
    begin := Moment.mk (DateTime.mk 2023 6 8 20 0) 30
    center := Moment.mk (DateTime.mk 2023 6 8 21 0) 50
    end_ := Moment.mk (DateTime.mk 2023 6 8 22 0) 40
    n_samples := n }

/-- C6: the ranker drops no candidate (the output is a permutation of the
input), orders it by non-decreasing sample count, and is stable (for every
key value the sublist of candidates with that count is preserved
verbatim); sample counts 5, 2, 2, 9 sort to 2, 2, 5, 9 with the two
equal-count entries in their original order. -/
theorem ranker_stable_ascending :
    (∀ l : List ETransit,
        (sortTransits l).Perm l ∧
          (sortTransits l).Pairwise (fun a b => a.n_samples ≤ b.n_samples) ∧
          ∀ k : Nat,
            (sortTransits l).filter (fun t => t.n_samples == k) =
              l.filter (fun t => t.n_samples == k)) ∧
      sortTransits [mkRanked "a" 5, mkRanked "b" 2, mkRanked "c" 2, mkRanked "d" 9] =
        [mkRanked "b" 2, mkRanked "c" 2, mkRanked "a" 5, mkRanked "d" 9] := by
  refine ⟨fun l => ⟨List.perm_insertionSort bySamples l, ?_,
    fun k => filter_sortTransits_eq k l⟩, by decide⟩
  exact List.sorted_insertionSort bySamples l

/-- A sample enriched candidate whose begin timestamp crosses midnight
under the fixed +02:00 rendering offset. -/
def sampleLate : ETransit :=
  { object := "HAT-P-32 b"
    mag_depth := 2
    begin := Moment.mk (DateTime.mk 2023 6 8 23 30) 40
    center := Moment.mk (DateTime.mk 2023 6 9 0 10) 60
    end_ := Moment.mk (DateTime.mk 2023 6 9 0 50) 50
    n_samples := 5 }

/-- C8 counterexample: on the empty candidate list the output is a single
header line, and that line is not the header the claim states: the three
time columns carry a " (cest)" suffix. -/
theorem csv_header_differs_from_claim :
    print_transits_csv [] =
        ["object;mag_depth;n_samples;begin time (cest);begin elevation;center time (cest);center elevation;end time (cest);end elevation"] ∧
      "object;mag_depth;n_samples;begin time (cest);begin elevation;center time (cest);center elevation;end time (cest);end elevation" ≠
        "object;mag_depth;n_samples;begin time;begin elevation;center time;center elevation;end time;end elevation" := by
  refine ⟨rfl, by decide⟩

/-- C8 (amended): the delimited output is exactly the header line
`object;mag_depth;n_samples;begin time (cest);begin elevation;center time
(cest);center elevation;end time (cest);end elevation` followed by one row
per candidate in the order given (the final ranked order in the
pipeline), with the three timestamps shifted by the fixed +02:00 offset at
render time, and no trailing summary; in particular a candidate beginning
at 23:30 UTC on 2023-06-08 renders with begin time 2023-06-09 01:30. -/
theorem csv_output_shape :
    (∀ transits : List ETransit,
        print_transits_csv transits =
          "object;mag_depth;n_samples;begin time (cest);begin elevation;center time (cest);center elevation;end time (cest);end elevation" ::
            transits.map (fun transit => String.intercalate ";" (csvFields transit)) ∧
          (print_transits_csv transits).length = transits.length + 1) ∧
      print_transits_csv [sampleLate] =
        ["object;mag_depth;n_samples;begin time (cest);begin elevation;center time (cest);center elevation;end time (cest);end elevation",
          "HAT-P-32 b;2;5;2023-06-09 01:30;40;2023-06-09 02:10;60;2023-06-09 02:50;50"] := by
  refine ⟨fun transits => ⟨rfl, ?_⟩, by decide⟩
  simp [print_transits_csv]

/-- The enrichment loop changes no pre-existing field of a transit. -/
lemma enrich_map_toTransit (sample_number : String → Nat) (transits : List Transit) :
    (enrich sample_number transits).map ETransit.toTransit = transits := by
  induction transits with
  | nil => rfl
  | cons t ts ih => simpa [enrich] using ih

/-- C10: the four filters are read-only and order-preserving: the
surviving list is a sublist of the input (same elements, same relative
order, fields untouched); the enricher rewrites no field other than the
added sample count, which it sets to the looked-up value of the object
name; and the final sort only permutes. -/
theorem pipeline_frame (config : Config) (sample_number : String → Nat)
    (transits : List Transit) :
    List.Sublist (applyFilters config transits) transits ∧
      (∀ t ∈ applyFilters config transits, t ∈ transits) ∧
      (enrich sample_number transits).map ETransit.toTransit = transits ∧
      (∀ e ∈ enrich sample_number transits, e.n_samples = sample_number e.object) ∧
      (sortTransits (enrich sample_number transits)).Perm
        (enrich sample_number transits) := by
  have hsub : List.Sublist (applyFilters config transits) transits :=
    (List.filter_sublist _).trans ((List.filter_sublist _).trans
      ((List.filter_sublist _).trans (List.filter_sublist _)))
  refine ⟨hsub, fun t ht => hsub.subset ht,
    enrich_map_toTransit sample_number transits, ?_, List.perm_insertionSort bySamples _⟩
  · intro e he
    simp only [enrich, List.mem_map] at he
    obtain ⟨t, _, rfl⟩ := he
    rfl

end GetTransits
